import Mathlib

/-
Verification of the car-home-services booking and pricing backend
(src/main.py, src/schemas.py).

Conventions of the embedding:
* Python floats carrying money/multipliers are modelled as exact rationals
  (ℚ); geographic coordinates and distances are modelled as real numbers (ℝ).
* Mongo documents read back from the database are raw dictionaries, so the
  fields the code accesses with `.get` are modelled as `Option` fields.
* `round(x, 2)` (Python round-half-to-even to two decimals) is modelled by
  `round2` below, a half-even rounding on ℚ.
* Fallible handler code returns `Except`; an uncaught Python exception that
  the blanket `except Exception` clause converts to an HTTP 500 response is
  an explicit error value.
-/

/-- Package entry of the static `PRICING_PACKAGES` catalog
(src/main.py lines 30-49): `{"name": …, "multiplier": …, "desc": …}`. -/
structure Package where
  name : String
  multiplier : ℚ
  desc : String
deriving DecidableEq, Repr

/-- Add-on entry of the static `PRICING_ADDONS` catalog
(src/main.py lines 51-55): `{"code": …, "label": …, "price": …}`. -/
structure Addon where
  code : String
  label : String
  price : ℚ
deriving DecidableEq, Repr

/-- The static package catalog, src/main.py lines 30-49, as an association
list from service name to its ordered package list (a Python dict keyed by
distinct strings). -/
def PRICING_PACKAGES : List (String × List Package) :=
  [ ("Car Wash",
      [ ⟨"Basic", 1, "Exterior wash"⟩,
        ⟨"Premium", 1.4, "Exterior + interior"⟩,
        ⟨"Detailing", 2, "Deep clean & wax"⟩ ]),
    ("Small Repair",
      [ ⟨"Standard", 1, "Minor fixes"⟩,
        ⟨"Extended", 1.5, "Includes parts upto $20"⟩ ]),
    ("Tyre Puncture",
      [ ⟨"Patch", 1, "Puncture patch/on-spot"⟩,
        ⟨"Spare Change", 1.2, "Spare wheel change"⟩ ]),
    ("General Servicing",
      [ ⟨"Basic", 1, "Inspection & fluids"⟩,
        ⟨"Plus", 1.3, "Filters included"⟩,
        ⟨"Complete", 1.8, "Full service"⟩ ]) ]

/-- The static add-on catalog, src/main.py lines 51-55. -/
def PRICING_ADDONS : List Addon :=
  [ ⟨"pickup_drop", "Pick-up & Drop", 8⟩,
    ⟨"sanitization", "Interior Sanitization", 10⟩,
    ⟨"engine_check", "Engine Health Check", 12⟩ ]

/-- `PRICING_PACKAGES.get(svc_name, [])`: dictionary lookup with default. -/
def pricingPackagesGet (n : String) : List Package :=
  ((PRICING_PACKAGES.find? (fun kv => kv.1 == n)).map Prod.snd).getD []

/-- A raw service document as returned by `db["service"].find_one`.  The
handlers read its keys with `.get`, so every key may be absent.  The field
`name?` models key `"name"`, `basePrice?` key `"base_price"`, `isActive?`
key `"is_active"`. -/
structure ServiceDoc where
  name? : Option String
  basePrice? : Option ℚ
  isActive? : Option Bool
deriving DecidableEq, Repr

/-- Round an exact rational to the nearest integer, ties to even: the
behaviour of Python `round` on an exact tie. -/
def roundHalfEven (q : ℚ) : ℤ :=
  if q - ⌊q⌋ < 1/2 then ⌊q⌋
  else if 1/2 < q - ⌊q⌋ then ⌊q⌋ + 1
  else if ⌊q⌋ % 2 = 0 then ⌊q⌋ else ⌊q⌋ + 1

/-- `round(x, 2)` of src/main.py line 94, on exact rationals. -/
def round2 (q : ℚ) : ℚ :=
  (roundHalfEven (100 * q) : ℚ) / 100

/-- Result dictionary of `compute_quote` (src/main.py lines 89-95). -/
structure QuoteResult where
  base_price : ℚ
  multiplier : ℚ
  package : Option Package
  addons : List Addon
  total : ℚ
deriving DecidableEq, Repr

/-- The package list used by `compute_quote`:
`PRICING_PACKAGES.get(svc_name, [])` where `svc_name = service_doc.get("name")`
(src/main.py lines 70-71).  A missing `"name"` key is the Python value
`None`, which matches no string key of the dict. -/
def packagesFor (doc : ServiceDoc) : List Package :=
  match doc.name? with
  | some n => pricingPackagesGet n
  | none => []

/-- The package-matching loop of `compute_quote` (src/main.py lines 74-79):
guarded by the truthiness test `if package_name:` (both `None` and the empty
string are falsy), it takes the first package whose `"name"` equals
`package_name`. -/
def matchedPackage (doc : ServiceDoc) (packageName : Option String) : Option Package :=
  match packageName with
  | none => none
  | some s => if s = "" then none else (packagesFor doc).find? (fun p => p.name == s)

/-- The multiplier selected by that loop: the matched package's multiplier,
else the initial value `1.0` (src/main.py lines 72, 77). -/
def multiplierOf (doc : ServiceDoc) (packageName : Option String) : ℚ :=
  match matchedPackage doc packageName with
  | some p => p.multiplier
  | none => 1

/-- `next((a for a in PRICING_ADDONS if a["code"] == code), None)`
(src/main.py line 84). -/
def findAddon (code : String) : Option Addon :=
  PRICING_ADDONS.find? (fun a => a.code == code)

/-- One iteration of the add-on loop of src/main.py lines 83-87: a matched
code adds its price to the accumulator and appends the add-on object;
an unmatched code changes nothing. -/
def addonStep (st : ℚ × List Addon) (code : String) : ℚ × List Addon :=
  match findAddon code with
  | some a => (st.1 + a.price, st.2 ++ [a])
  | none => st

/-- The list of matched add-on objects, in input order (the value the
`applied_addons` accumulator of src/main.py lines 81-87 ends with). -/
def matchedAddons (sel : List String) : List Addon :=
  sel.filterMap findAddon

/-- Sum of the matched add-on prices (the value the `addons_price`
accumulator of src/main.py lines 80-86 ends with). -/
def addonPricesSum (sel : List String) : ℚ :=
  ((matchedAddons sel).map Addon.price).sum

/-- `compute_quote` (src/main.py lines 68-95).  `base_price` is
`service_doc.get("base_price", 0)`; the two accumulating loops are the
`find?`-based `matchedPackage`/`multiplierOf` and a left fold of
`addonStep` over `selected_addons or []`. -/
def computeQuote (doc : ServiceDoc) (packageName : Option String)
    (selectedAddons : Option (List String)) : QuoteResult :=
  let base_price := doc.basePrice?.getD 0
  let applied_package := matchedPackage doc packageName
  let multiplier := multiplierOf doc packageName
  let st := (selectedAddons.getD []).foldl addonStep ((0 : ℚ), ([] : List Addon))
  { base_price := base_price
    multiplier := multiplier
    package := applied_package
    addons := st.2
    total := round2 (base_price * multiplier + st.1) }

/-- The first seeded service document (src/main.py line 110), as
`find_one` returns it. -/
def carWashDoc : ServiceDoc := ⟨some "Car Wash", some 25, some true⟩

/-- The four seeded service documents (src/main.py lines 109-114). -/
def seedServices : List ServiceDoc :=
  [ carWashDoc,
    ⟨some "Small Repair", some 40, some true⟩,
    ⟨some "Tyre Puncture", some 15, some true⟩,
    ⟨some "General Servicing", some 70, some true⟩ ]

/-- `math.radians`: degrees to radians, `x · π / 180`. -/
noncomputable def radians (x : ℝ) : ℝ :=
  x * (Real.pi / 180)

/-- `math.atan2 y x`: the two-argument arctangent, by the usual quadrant
case split (src/main.py line 64 only ever calls it with non-negative
arguments). -/
noncomputable def atan2 (y x : ℝ) : ℝ :=
  if 0 < x then Real.arctan (y / x)
  else if x < 0 then
    (if 0 ≤ y then Real.arctan (y / x) + Real.pi else Real.arctan (y / x) - Real.pi)
  else
    (if 0 < y then Real.pi / 2 else if y < 0 then -(Real.pi / 2) else 0)

/-- The haversine term `a` of src/main.py line 63:
`sin(dphi/2)**2 + cos(phi1)*cos(phi2)*sin(dlambda/2)**2` with
`phi1 = radians lat1`, `phi2 = radians lat2`, `dphi = radians (lat2-lat1)`,
`dlambda = radians (lon2-lon1)` (lines 60-62). -/
noncomputable def havTerm (lat1 lon1 lat2 lon2 : ℝ) : ℝ :=
  Real.sin (radians (lat2 - lat1) / 2) ^ 2 +
    Real.cos (radians lat1) * Real.cos (radians lat2) *
      Real.sin (radians (lon2 - lon1) / 2) ^ 2

/-- `haversine_km` (src/main.py lines 58-65): great-circle distance in km,
Earth radius `R = 6371.0`, `c = 2*atan2(sqrt(a), sqrt(1-a))`, result `R*c`. -/
noncomputable def haversineKm (lat1 lon1 lat2 lon2 : ℝ) : ℝ :=
  let a := havTerm lat1 lon1 lat2 lon2
  let c := 2 * atan2 (Real.sqrt a) (Real.sqrt (1 - a))
  6371.0 * c

/-- The service-area configuration (src/main.py lines 24-28): a center and a
radius, read once from the environment at startup. -/
structure ServiceArea where
  lat : ℝ
  lng : ℝ
  radius_km : ℝ

/-- `DEFAULT_SERVICE_AREA` with the documented environment defaults
(New Delhi, 25 km). -/
noncomputable def defaultServiceArea : ServiceArea :=
  ⟨28.6139, 77.2090, 25⟩

/-- Round a real to the nearest integer, ties to even (Python `round`). -/
noncomputable def roundHalfEvenR (x : ℝ) : ℤ :=
  if x - ⌊x⌋ < 1/2 then ⌊x⌋
  else if 1/2 < x - ⌊x⌋ then ⌊x⌋ + 1
  else if ⌊x⌋ % 2 = 0 then ⌊x⌋ else ⌊x⌋ + 1

/-- `round(x, 2)` on reals (src/main.py line 187). -/
noncomputable def roundR2 (x : ℝ) : ℝ :=
  (roundHalfEvenR (100 * x) : ℝ) / 100

/-- Response of the `/api/check-location` handler, coordinates already
parsed (parse failures are the upstream 400 "Invalid coordinates" path,
src/main.py lines 190-191). -/
structure LocationCheck where
  inside : Prop
  distance_km : ℝ

/-- `check_location` (src/main.py lines 179-189) on parsed coordinates:
`inside` is `distance_km <= radius_km` computed from the configured area. -/
noncomputable def checkLocation (area : ServiceArea) (lat lng : ℝ) : LocationCheck :=
  let distance_km := haversineKm area.lat area.lng lat lng
  { inside := distance_km ≤ area.radius_km
    distance_km := roundR2 distance_km }

/-- The four service-name literals of `ServiceType` in src/schemas.py
lines 35-40: `service_name` of a validated `Booking` is always one of
these. -/
inductive ServiceTypeLit where
  | carWash
  | smallRepair
  | tyrePuncture
  | generalServicing
deriving DecidableEq, Repr

/-- The string value of a `ServiceType` literal. -/
def ServiceTypeLit.toName : ServiceTypeLit → String
  | .carWash => "Car Wash"
  | .smallRepair => "Small Repair"
  | .tyrePuncture => "Tyre Puncture"
  | .generalServicing => "General Servicing"

/-- The four status literals of the `Booking.status` field
(src/schemas.py lines 67-69). -/
inductive StatusLit where
  | pending
  | confirmed
  | completed
  | cancelled
deriving DecidableEq, Repr

/-- A validated `Booking` model instance (src/schemas.py lines 53-69).
These are exactly the declared fields; in particular the model declares no
`quoted_price`, `package_name`, `selected_addons`, `latitude` or
`longitude` field (pydantic drops unknown request keys at validation).
The length bounds on `phone` do not influence any handler, so they are not
carried in the type. -/
structure BookingModel where
  customer_name : String
  phone : String
  address : String
  vehicle_make : String
  vehicle_model : String
  service_name : ServiceTypeLit
  preferred_date : String
  preferred_time : String
  notes : Option String
  status : StatusLit
deriving DecidableEq, Repr

/-- A Python exception surfaced by a handler body: either an
`HTTPException(status_code, detail)` it raised itself, or an
`AttributeError` from accessing an attribute the pydantic model does not
declare. -/
inductive PyErr where
  | http (code : ℕ) (detail : String)
  | attributeError (attr : String)
deriving DecidableEq, Repr

/-- The `except` clauses of the handlers (e.g. src/main.py lines 218-221):
an `HTTPException` is re-raised unchanged; any other exception becomes a
500 response carrying `str(e)`. -/
def PyErr.toResponse : PyErr → ℕ × String
  | .http c d => (c, d)
  | .attributeError a => (500, "Booking object has no attribute " ++ a)

/-- The response detail of the `AttributeError` raised on
`booking.quoted_price` (src/main.py line 204). -/
def quotedPriceAttrDetail : ℕ × String :=
  (500, "Booking object has no attribute quoted_price")

/-- Pydantic attribute access `booking.quoted_price` (src/main.py
line 204): the `Booking` model declares no `quoted_price` field, so the
access raises `AttributeError` on every instance. -/
def BookingModel.quotedPriceAttr (_b : BookingModel) : Except PyErr (Option ℚ) :=
  .error (.attributeError "quoted_price")

/-- Pydantic attribute access `booking.package_name` (src/main.py
line 206): not a declared field, raises `AttributeError`. -/
def BookingModel.packageNameAttr (_b : BookingModel) : Except PyErr (Option String) :=
  .error (.attributeError "package_name")

/-- Pydantic attribute access `booking.selected_addons` (src/main.py
line 206): not a declared field, raises `AttributeError`. -/
def BookingModel.selectedAddonsAttr (_b : BookingModel) : Except PyErr (Option (List String)) :=
  .error (.attributeError "selected_addons")

/-- Pydantic attribute access `booking.latitude` (src/main.py line 209):
not a declared field, raises `AttributeError`. -/
def BookingModel.latitudeAttr (_b : BookingModel) : Except PyErr (Option ℝ) :=
  .error (.attributeError "latitude")

/-- Pydantic attribute access `booking.longitude` (src/main.py line 209):
not a declared field, raises `AttributeError`. -/
def BookingModel.longitudeAttr (_b : BookingModel) : Except PyErr (Option ℝ) :=
  .error (.attributeError "longitude")

/-- The document handed to `create_document("booking", data)`
(src/main.py lines 214-216): `booking.model_dump()` (exactly the declared
fields) with `quoted_price` set. -/
structure PersistedBooking where
  fields : BookingModel
  quoted_price : ℚ
deriving DecidableEq, Repr

/-- The success response of `create_booking` (src/main.py line 217). -/
structure CreateOk where
  id : String
  status : StatusLit
  quoted_price : ℚ
deriving DecidableEq, Repr

/-- The `try` body of `create_booking` (src/main.py lines 197-217) after
the `db is None` guard, given the service collection `db`, the configured
`area`, the identifier `nid` that `create_document` would generate, and the
validated `booking` model.  Alongside the response it returns the list of
documents inserted (the insert at line 216 is the only persistence and is
followed only by the return, so an error result inserts nothing). -/
noncomputable def createBookingTry (db : List ServiceDoc) (area : ServiceArea)
    (nid : String) (b : BookingModel) :
    Except PyErr (CreateOk × List PersistedBooking) := do
  let svc ← (match db.find? (fun d => d.name? == some b.service_name.toName) with
    | none => Except.error (.http 404 "Service not found")
    | some s => Except.ok s)
  let qp0 ← b.quotedPriceAttr
  let quoted_price ← (match qp0 with
    | none => do
        let pkg ← b.packageNameAttr
        let sel ← b.selectedAddonsAttr
        Except.ok (computeQuote svc pkg sel).total
    | some q => Except.ok q)
  let lat? ← b.latitudeAttr
  let lng? ← b.longitudeAttr
  let _ ← (match lat?, lng? with
    | some lat, some lng =>
        if haversineKm area.lat area.lng lat lng > area.radius_km
        then Except.error (.http 400 "Address is outside service area")
        else Except.ok ()
    | _, _ => Except.ok ())
  let data : PersistedBooking := { fields := b, quoted_price := quoted_price }
  Except.ok ({ id := nid, status := b.status, quoted_price := quoted_price }, [data])

/-- `create_booking` (src/main.py lines 194-221): the `db is None` guard,
then the `try` body with its `except` clauses mapping exceptions to HTTP
responses.  The second component is the list of persisted documents. -/
noncomputable def createBooking (db? : Option (List ServiceDoc)) (area : ServiceArea)
    (nid : String) (b : BookingModel) :
    Except (ℕ × String) CreateOk × List PersistedBooking :=
  match db? with
  | none => (Except.error (500, "Database not configured"), [])
  | some db =>
    match createBookingTry db area nid b with
    | .error e => (Except.error e.toResponse, [])
    | .ok (res, persisted) => (Except.ok res, persisted)

/-- A stored booking document as seen by the status-update handler: its
identifier and its `status` field.  The `$set` update touches only
`status`, so the remaining fields are irrelevant to the handler and not
modelled. -/
structure StoredBooking where
  id : String
  status : String
deriving DecidableEq, Repr

/-- The status whitelist of src/main.py line 248. -/
def ALLOWED_STATUSES : List String :=
  ["pending", "confirmed", "completed", "cancelled"]

/-- `db["booking"].update_one({"_id": …}, {"$set": {"status": …}})`
(src/main.py line 250): sets the status of the document with the given
identifier (Mongo identifiers are unique, so at most the first match is
updated) and reports the matched count, 0 or 1. -/
def updateOne : List StoredBooking → String → String → ℕ × List StoredBooking
  | [], _, _ => (0, [])
  | r :: rest, bid, s =>
    if r.id == bid then (1, { r with status := s } :: rest)
    else
      let t := updateOne rest bid s
      (t.1, r :: t.2)

/-- `update_booking_status` (src/main.py lines 242-257), given a configured
booking collection: `payload.get("status")` (`none` when the key is
absent, and `None not in [...]` is true, so an absent key is rejected like
a bad value); the identifier is the opaque key the storage collaborator
matches on.  Returns the response together with the resulting
collection. -/
def updateBookingStatus (store : List StoredBooking) (bookingId : String)
    (payloadStatus : Option String) :
    Except (ℕ × String) (String × String) × List StoredBooking :=
  match payloadStatus with
  | none => (Except.error (400, "Invalid status"), store)
  | some s =>
    if ¬ (ALLOWED_STATUSES.contains s) then
      (Except.error (400, "Invalid status"), store)
    else
      let t := updateOne store bookingId s
      if t.1 = 0 then (Except.error (404, "Booking not found"), store)
      else (Except.ok (bookingId, s), t.2)

/-- A concrete validated booking request used as evaluation input: a
Car Wash booking with default status. -/
def sampleBooking : BookingModel :=
  { customer_name := "Asha"
    phone := "5551234567"
    address := "1 Main St"
    vehicle_make := "Tata"
    vehicle_model := "Nexon"
    service_name := .carWash
    preferred_date := "2026-10-20"
    preferred_time := "10:00"
    notes := none
    status := .pending }

/-- A service area whose boundary passes through the origin: center at the
origin with radius 0.  Used to evaluate the boundary-inclusiveness
theorem at a concrete input. -/
noncomputable def originArea : ServiceArea := ⟨0, 0, 0⟩

/-- A service collection holding a single inactive Car Wash document. -/
def inactiveCarWashDb : List ServiceDoc :=
  [⟨some "Car Wash", some 25, some false⟩]

theorem foldl_addonStep_eq (sel : List String) :
    ∀ (p : ℚ) (l : List Addon),
      sel.foldl addonStep (p, l) = (p + addonPricesSum sel, l ++ matchedAddons sel) := by
  induction sel with
  | nil => intro p l; simp [addonPricesSum, matchedAddons]
  | cons c rest ih =>
    intro p l
    cases h : findAddon c with
    | none =>
      simp [List.foldl, addonStep, h, addonPricesSum, matchedAddons,
        List.filterMap_cons, ih]
    | some a =>
      simp [List.foldl, addonStep, h, addonPricesSum, matchedAddons,
        List.filterMap_cons, ih, add_assoc]

theorem catalog_multipliers_nonneg :
    ∀ kv ∈ PRICING_PACKAGES, ∀ p ∈ kv.2, 0 ≤ p.multiplier := by
  simp [PRICING_PACKAGES]
  norm_num

theorem catalog_addon_prices_nonneg : ∀ a ∈ PRICING_ADDONS, 0 ≤ a.price := by
  simp [PRICING_ADDONS]

theorem matchedPackage_mem {doc : ServiceDoc} {pn : Option String} {p : Package}
    (hm : matchedPackage doc pn = some p) : p ∈ packagesFor doc := by
  unfold matchedPackage at hm
  cases pn with
  | none => simp at hm
  | some s =>
    by_cases hs : s = ""
    · simp [hs] at hm
    · simp only [hs, if_false] at hm
      exact List.mem_of_find?_eq_some hm

theorem mem_packagesFor_nonneg {doc : ServiceDoc} {p : Package}
    (hmem : p ∈ packagesFor doc) : 0 ≤ p.multiplier := by
  cases hn : doc.name? with
  | none => simp [packagesFor, hn] at hmem
  | some n =>
    simp only [packagesFor, hn] at hmem
    unfold pricingPackagesGet at hmem
    cases hf : PRICING_PACKAGES.find? (fun kv => kv.1 == n) with
    | none => rw [hf] at hmem; simp at hmem
    | some kv =>
      rw [hf] at hmem
      simp at hmem
      exact catalog_multipliers_nonneg kv (List.mem_of_find?_eq_some hf) p hmem

theorem multiplierOf_nonneg (doc : ServiceDoc) (pn : Option String) :
    0 ≤ multiplierOf doc pn := by
  cases hm : matchedPackage doc pn with
  | none => simp [multiplierOf, hm]
  | some p =>
    simp only [multiplierOf, hm]
    exact mem_packagesFor_nonneg (matchedPackage_mem hm)

theorem findAddon_mem {c : String} {a : Addon} (h : findAddon c = some a) :
    a ∈ PRICING_ADDONS :=
  List.mem_of_find?_eq_some (show PRICING_ADDONS.find? _ = some a from h)

theorem addonPricesSum_nonneg (sel : List String) : 0 ≤ addonPricesSum sel := by
  unfold addonPricesSum
  apply List.sum_nonneg
  intro x hx
  rw [List.mem_map] at hx
  obtain ⟨a, ha, rfl⟩ := hx
  rw [matchedAddons, List.mem_filterMap] at ha
  obtain ⟨c, _, hfa⟩ := ha
  exact catalog_addon_prices_nonneg a (findAddon_mem hfa)

theorem roundHalfEven_nonneg {q : ℚ} (h : 0 ≤ q) : 0 ≤ roundHalfEven q := by
  unfold roundHalfEven
  have hf : (0 : ℤ) ≤ ⌊q⌋ := Int.floor_nonneg.mpr h
  split_ifs <;> omega

theorem round2_nonneg {q : ℚ} (h : 0 ≤ q) : 0 ≤ round2 q := by
  unfold round2
  apply div_nonneg _ (by norm_num)
  exact_mod_cast roundHalfEven_nonneg (by positivity)

theorem roundHalfEven_intCast (n : ℤ) : roundHalfEven (n : ℚ) = n := by
  unfold roundHalfEven
  norm_num

theorem quote_scenario_carwash :
    (computeQuote carWashDoc (some "Premium") (some ["pickup_drop"])).total = 43 := by
  simp [computeQuote, multiplierOf, matchedPackage, packagesFor, carWashDoc,
    pricingPackagesGet, PRICING_PACKAGES, PRICING_ADDONS, findAddon, addonStep,
    List.find?, round2]
  rw [show (100 : ℚ) * (25 * 1.4 + 8) = ((4300 : ℤ) : ℚ) by norm_num,
    roundHalfEven_intCast]
  norm_num

/-- C1: for every service record with non-negative (effective) base price,
every optional package name and every list of add-on codes, the
`compute_quote` total equals `round(base_price * multiplier + Σ matched
add-on prices, 2)` with the multiplier the matched package's one (else 1),
this total is non-negative, and the Car Wash / Premium / pickup_drop
scenario totals 43.0. -/
theorem C1_quote_total_spec (doc : ServiceDoc) (packageName : Option String)
    (sel : Option (List String)) (h : 0 ≤ doc.basePrice?.getD 0) :
    (computeQuote doc packageName sel).total
        = round2 (doc.basePrice?.getD 0 * multiplierOf doc packageName
            + addonPricesSum (sel.getD []))
      ∧ 0 ≤ (computeQuote doc packageName sel).total
      ∧ (computeQuote carWashDoc (some "Premium") (some ["pickup_drop"])).total = 43 := by
  have hfold := foldl_addonStep_eq (sel.getD []) 0 []
  refine ⟨?_, ?_, quote_scenario_carwash⟩
  · simp [computeQuote, hfold]
  · simp only [computeQuote, hfold, zero_add]
    exact round2_nonneg
      (add_nonneg (mul_nonneg h (multiplierOf_nonneg doc packageName))
        (addonPricesSum_nonneg _))

/-- Evaluation of C1 at the seeded Car Wash document, Premium package and
the pickup_drop add-on. -/
theorem C1_quote_total_spec_witness :
    (computeQuote carWashDoc (some "Premium") (some ["pickup_drop"])).total
      = round2 (carWashDoc.basePrice?.getD 0 * multiplierOf carWashDoc (some "Premium")
          + addonPricesSum ((some ["pickup_drop"]).getD [])) :=
  (C1_quote_total_spec carWashDoc (some "Premium") (some ["pickup_drop"]) (by norm_num [carWashDoc])).1

theorem findAddon_code {c : String} {a : Addon} (h : findAddon c = some a) :
    a.code = c := by
  have hb := List.find?_some (show PRICING_ADDONS.find? (fun a => a.code == c) = some a from h)
  exact eq_of_beq hb

theorem computeQuote_addons (doc : ServiceDoc) (pkg : Option String)
    (sel : Option (List String)) :
    (computeQuote doc pkg sel).addons = matchedAddons (sel.getD []) := by
  simp [computeQuote, foldl_addonStep_eq]

theorem matchedAddons_cons_some {x : String} {a : Addon} (h : findAddon x = some a)
    (t : List String) : matchedAddons (x :: t) = a :: matchedAddons t := by
  simp [matchedAddons, List.filterMap_cons, h]

theorem matchedAddons_cons_none {x : String} (h : findAddon x = none)
    (t : List String) : matchedAddons (x :: t) = matchedAddons t := by
  simp [matchedAddons, List.filterMap_cons, h]

theorem addonPricesSum_cons_some {x : String} {a : Addon} (h : findAddon x = some a)
    (t : List String) : addonPricesSum (x :: t) = a.price + addonPricesSum t := by
  simp [addonPricesSum, matchedAddons_cons_some h]

theorem addonPricesSum_cons_none {x : String} (h : findAddon x = none)
    (t : List String) : addonPricesSum (x :: t) = addonPricesSum t := by
  simp [addonPricesSum, matchedAddons_cons_none h]

theorem matchedAddons_count (c : String) (a : Addon) (ha : findAddon c = some a) :
    ∀ l : List String, (matchedAddons l).count a = l.count c := by
  intro l
  induction l with
  | nil => simp [matchedAddons]
  | cons x t ih =>
    by_cases hx : x = c
    · subst hx
      rw [matchedAddons_cons_some ha]
      simp [List.count_cons, ih]
    · cases hfx : findAddon x with
      | none =>
        rw [matchedAddons_cons_none hfx]
        simp [List.count_cons, beq_iff_eq, hx, ih]
      | some b =>
        have hbne : b ≠ a := by
          intro he
          subst he
          exact hx ((findAddon_code hfx).symm.trans (findAddon_code ha))
        rw [matchedAddons_cons_some hfx]
        simp [List.count_cons, beq_iff_eq, hx, hbne, ih]

theorem addonPricesSum_count_split (c : String) (a : Addon) (ha : findAddon c = some a) :
    ∀ l : List String,
      addonPricesSum l
        = a.price * l.count c + addonPricesSum (l.filter (fun x => x != c)) := by
  intro l
  induction l with
  | nil => simp [addonPricesSum, matchedAddons]
  | cons x t ih =>
    by_cases hx : x = c
    · subst hx
      rw [addonPricesSum_cons_some ha, ih]
      simp [List.count_cons, List.filter_cons]
      ring
    · cases hfx : findAddon x with
      | none =>
        rw [addonPricesSum_cons_none hfx, ih]
        simp [List.count_cons, List.filter_cons, beq_iff_eq, bne_iff_ne, hx,
          addonPricesSum_cons_none hfx]
      | some b =>
        rw [addonPricesSum_cons_some hfx, ih]
        simp [List.count_cons, List.filter_cons, beq_iff_eq, bne_iff_ne, hx,
          addonPricesSum_cons_some hfx]
        ring

/-- C5: an unknown package name for the given service yields multiplier 1
and no applied package, and an add-on code absent from the catalog
contributes nothing and is dropped from the output: removing it from the
input list leaves the whole quote unchanged.  (`compute_quote` is a total
function of its inputs — it raises no error; in this embedding that is
expressed by its plain, non-`Except` result type.) -/
theorem C5_unknown_lookups_graceful (doc : ServiceDoc) (s : String)
    (sel : Option (List String)) (pkg : Option String)
    (pre post : List String) (c : String) :
    ((∀ p ∈ packagesFor doc, p.name ≠ s) →
        (computeQuote doc (some s) sel).multiplier = 1
          ∧ (computeQuote doc (some s) sel).package = none)
      ∧ (findAddon c = none →
          computeQuote doc pkg (some (pre ++ c :: post))
            = computeQuote doc pkg (some (pre ++ post))) := by
  constructor
  · intro hall
    have hmp : matchedPackage doc (some s) = none := by
      unfold matchedPackage
      by_cases hs : s = ""
      · simp [hs]
      · simp only [hs, if_false]
        rw [List.find?_eq_none]
        intro p hp
        simp [hall p hp]
    exact ⟨by simp [computeQuote, multiplierOf, hmp], by simp [computeQuote, hmp]⟩
  · intro hc
    have hm : matchedAddons (pre ++ c :: post) = matchedAddons (pre ++ post) := by
      simp [matchedAddons, List.filterMap_append, List.filterMap_cons, hc]
    have hs : addonPricesSum (pre ++ c :: post) = addonPricesSum (pre ++ post) := by
      simp [addonPricesSum, hm]
    simp [computeQuote, foldl_addonStep_eq, addonStep, hc, hm, hs]

/-- Evaluation of C5 at the Car Wash document with the unknown package name
"Gold" and the unknown add-on code "nope". -/
theorem C5_unknown_lookups_graceful_witness :
    (computeQuote carWashDoc (some "Gold") (some [])).multiplier = 1
      ∧ (computeQuote carWashDoc (some "Gold") (some [])).package = none
      ∧ computeQuote carWashDoc none (some ([] ++ "nope" :: ["pickup_drop"]))
          = computeQuote carWashDoc none (some ([] ++ ["pickup_drop"])) := by
  have h := C5_unknown_lookups_graceful carWashDoc "Gold" (some []) none [] ["pickup_drop"] "nope"
  have h1 := h.1 (by decide)
  exact ⟨h1.1, h1.2, h.2 (by decide)⟩

/-- C6: a catalog add-on code occurring repeatedly in the input list is
not deduplicated: a further occurrence prepends the add-on object to the
output list again and contributes its price again; over a whole list, the
matched total decomposes as price times occurrence count, and the add-on
object occurs in the output once per occurrence of its code. -/
theorem C6_duplicate_addons (doc : ServiceDoc) (pkg : Option String)
    (l : List String) (c : String) (a : Addon) (ha : findAddon c = some a) :
    (computeQuote doc pkg (some (c :: l))).addons
        = a :: (computeQuote doc pkg (some l)).addons
      ∧ addonPricesSum (c :: l) = a.price + addonPricesSum l
      ∧ addonPricesSum l
          = a.price * l.count c + addonPricesSum (l.filter (fun x => x != c))
      ∧ ((computeQuote doc pkg (some l)).addons).count a = l.count c := by
  refine ⟨?_, ?_, addonPricesSum_count_split c a ha l, ?_⟩
  · simp [computeQuote_addons, matchedAddons, List.filterMap_cons, ha]
  · simp [addonPricesSum, matchedAddons, List.filterMap_cons, ha]
  · rw [computeQuote_addons]
    exact matchedAddons_count c a ha l

theorem atan2_nonneg {y x : ℝ} (hy : 0 ≤ y) (hx : 0 ≤ x) : 0 ≤ atan2 y x := by
  unfold atan2
  rcases lt_or_eq_of_le hx with hx' | hx'
  · rw [if_pos hx']
    have hm := Real.arctan_strictMono.monotone (div_nonneg hy (le_of_lt hx'))
    rwa [Real.arctan_zero] at hm
  · have hx0 : ¬ (0 < x) := by rw [← hx']; exact lt_irrefl 0
    have hxneg : ¬ (x < 0) := by rw [← hx']; exact lt_irrefl 0
    rw [if_neg hx0, if_neg hxneg]
    rcases lt_or_eq_of_le hy with hy' | hy'
    · rw [if_pos hy']
      linarith [Real.pi_pos]
    · have hy0 : ¬ (0 < y) := by rw [← hy']; exact lt_irrefl 0
      have hyneg : ¬ (y < 0) := by rw [← hy']; exact lt_irrefl 0
      rw [if_neg hy0, if_neg hyneg]

theorem haversine_nonneg (lat1 lon1 lat2 lon2 : ℝ) :
    0 ≤ haversineKm lat1 lon1 lat2 lon2 := by
  have h := atan2_nonneg (Real.sqrt_nonneg (havTerm lat1 lon1 lat2 lon2))
    (Real.sqrt_nonneg (1 - havTerm lat1 lon1 lat2 lon2))
  simp only [haversineKm]
  exact mul_nonneg (by norm_num) (mul_nonneg (by norm_num) h)

theorem haversine_self (lat lon : ℝ) : haversineKm lat lon lat lon = 0 := by
  have ht : havTerm lat lon lat lon = 0 := by simp [havTerm, radians]
  simp only [haversineKm, ht, Real.sqrt_zero, sub_zero, Real.sqrt_one]
  unfold atan2
  rw [if_pos (by norm_num : (0 : ℝ) < 1)]
  simp

theorem havTerm_symm (lat1 lon1 lat2 lon2 : ℝ) :
    havTerm lat2 lon2 lat1 lon1 = havTerm lat1 lon1 lat2 lon2 := by
  unfold havTerm
  have h1 : radians (lat1 - lat2) = -(radians (lat2 - lat1)) := by unfold radians; ring
  have h2 : radians (lon1 - lon2) = -(radians (lon2 - lon1)) := by unfold radians; ring
  rw [h1, h2, neg_div, neg_div, Real.sin_neg, Real.sin_neg, neg_sq, neg_sq]
  ring

theorem haversine_symm (lat1 lon1 lat2 lon2 : ℝ) :
    haversineKm lat2 lon2 lat1 lon1 = haversineKm lat1 lon1 lat2 lon2 := by
  simp only [haversineKm, havTerm_symm]

/-- C9: the haversine distance is non-negative for all inputs, zero on
identical points, and symmetric in its two points. -/
theorem C9_haversine_props (lat1 lon1 lat2 lon2 : ℝ) :
    0 ≤ haversineKm lat1 lon1 lat2 lon2
      ∧ haversineKm lat1 lon1 lat1 lon1 = 0
      ∧ haversineKm lat1 lon1 lat2 lon2 = haversineKm lat2 lon2 lat1 lon1 :=
  ⟨haversine_nonneg lat1 lon1 lat2 lon2, haversine_self lat1 lon1,
    (haversine_symm lat1 lon1 lat2 lon2).symm⟩

/-- C8: a point whose haversine distance from the configured center equals
the configured radius exactly is classified inside by the standalone
location check (`distance_km <= radius_km`, src/main.py line 186), and the
rejection condition of booking creation (`distance_km > radius_km`,
src/main.py line 211) does not hold for it. -/
theorem C8_boundary_inclusive (area : ServiceArea) (lat lng : ℝ)
    (h : haversineKm area.lat area.lng lat lng = area.radius_km) :
    (checkLocation area lat lng).inside
      ∧ ¬ (haversineKm area.lat area.lng lat lng > area.radius_km) := by
  constructor
  · show haversineKm area.lat area.lng lat lng ≤ area.radius_km
    exact le_of_eq h
  · exact not_lt.mpr (le_of_eq h)

/-- Evaluation of C8 at the boundary point of a concrete area: the origin
lies exactly on the boundary of the radius-0 area centered at the
origin. -/
theorem C8_boundary_inclusive_witness :
    (checkLocation originArea 0 0).inside
      ∧ ¬ (haversineKm originArea.lat originArea.lng 0 0 > originArea.radius_km) :=
  C8_boundary_inclusive originArea 0 0 (haversine_self 0 0)

theorem updateOne_cons_eq {r : StoredBooking} {bid : String} (hr : r.id = bid)
    (rest : List StoredBooking) (s : String) :
    updateOne (r :: rest) bid s = (1, { r with status := s } :: rest) := by
  simp [updateOne, beq_iff_eq, hr]

theorem updateOne_cons_ne {r : StoredBooking} {bid : String} (hr : r.id ≠ bid)
    (rest : List StoredBooking) (s : String) :
    updateOne (r :: rest) bid s
      = ((updateOne rest bid s).1, r :: (updateOne rest bid s).2) := by
  simp [updateOne, beq_iff_eq, hr]

theorem updateOne_no_match (s : String) :
    ∀ (store : List StoredBooking) (bid : String),
      (∀ r ∈ store, r.id ≠ bid) → updateOne store bid s = (0, store) := by
  intro store
  induction store with
  | nil => intro bid _; rfl
  | cons r rest ih =>
    intro bid h
    have hr : r.id ≠ bid := h r (List.mem_cons_self r rest)
    rw [updateOne_cons_ne hr,
      ih bid (fun x hx => h x (List.mem_cons_of_mem r hx))]

theorem updateOne_match (s : String) :
    ∀ (store : List StoredBooking) (bid : String),
      (∃ r ∈ store, r.id = bid) →
      (updateOne store bid s).1 = 1
        ∧ ∃ r' ∈ (updateOne store bid s).2, r'.id = bid ∧ r'.status = s := by
  intro store
  induction store with
  | nil => intro bid h; simp at h
  | cons r rest ih =>
    intro bid h
    by_cases hr : r.id = bid
    · rw [updateOne_cons_eq hr]
      exact ⟨rfl, { r with status := s }, List.mem_cons_self _ _, hr, rfl⟩
    · have h' : ∃ x ∈ rest, x.id = bid := by
        obtain ⟨x, hx, hxid⟩ := h
        rcases List.mem_cons.mp hx with rfl | hxr
        · exact absurd hxid hr
        · exact ⟨x, hxr, hxid⟩
      obtain ⟨ih1, r', hmem, hr'⟩ := ih bid h'
      rw [updateOne_cons_ne hr]
      exact ⟨ih1, r', List.mem_cons_of_mem r hmem, hr'⟩

/-- C7: the status-update operation rejects any payload whose status is not
one of the four enumerated values with the 400 "Invalid status" response
and an unchanged store; rejects an unmatched booking identifier with the
404 "Booking not found" response and an unchanged store; and otherwise
returns the identifier with the new status, the matched record's status
field having been set to it. -/
theorem C7_set_status (store : List StoredBooking) (bookingId : String)
    (payload : Option String) :
    ((∀ s, payload = some s → s ∉ ALLOWED_STATUSES) →
        updateBookingStatus store bookingId payload
          = (Except.error (400, "Invalid status"), store))
      ∧ (∀ s, payload = some s → s ∈ ALLOWED_STATUSES →
          (∀ r ∈ store, r.id ≠ bookingId) →
          updateBookingStatus store bookingId payload
            = (Except.error (404, "Booking not found"), store))
      ∧ (∀ s, payload = some s → s ∈ ALLOWED_STATUSES →
          (∃ r ∈ store, r.id = bookingId) →
          (updateBookingStatus store bookingId payload).1
              = Except.ok (bookingId, s)
            ∧ ∃ r' ∈ (updateBookingStatus store bookingId payload).2,
                r'.id = bookingId ∧ r'.status = s) := by
  refine ⟨?_, ?_, ?_⟩
  · intro h
    cases payload with
    | none => rfl
    | some s =>
      have hnotmem : s ∉ ALLOWED_STATUSES := h s rfl
      simp [updateBookingStatus, hnotmem]
  · intro s hp hmem hno
    subst hp
    simp [updateBookingStatus, hmem, updateOne_no_match s store bookingId hno]
  · intro s hp hmem hex
    subst hp
    obtain ⟨h1, r', hr'mem, hr'⟩ := updateOne_match s store bookingId hex
    constructor
    · simp [updateBookingStatus, hmem, h1]
    · refine ⟨r', ?_, hr'⟩
      simpa [updateBookingStatus, hmem, h1] using hr'mem

/-- Evaluation of C7 on a one-booking store: a bad status value is
rejected, an unknown identifier is not found, and a valid transition
returns the identifier with the new status. -/
theorem C7_set_status_witness :
    updateBookingStatus [⟨"b1", "pending"⟩] "b1" (some "done")
        = (Except.error (400, "Invalid status"), [⟨"b1", "pending"⟩])
      ∧ updateBookingStatus [⟨"b1", "pending"⟩] "b2" (some "confirmed")
          = (Except.error (404, "Booking not found"), [⟨"b1", "pending"⟩])
      ∧ (updateBookingStatus [⟨"b1", "pending"⟩] "b1" (some "confirmed")).1
          = Except.ok ("b1", "confirmed") := by
  refine ⟨?_, ?_, ?_⟩
  · exact (C7_set_status [⟨"b1", "pending"⟩] "b1" (some "done")).1
      (fun s hs => by cases hs; decide)
  · exact (C7_set_status [⟨"b1", "pending"⟩] "b2" (some "confirmed")).2.1
      "confirmed" rfl (by decide)
      (fun r hr => by rcases List.mem_singleton.mp hr with rfl; decide)
  · exact ((C7_set_status [⟨"b1", "pending"⟩] "b1" (some "confirmed")).2.2
      "confirmed" rfl (by decide)
      ⟨⟨"b1", "pending"⟩, List.mem_singleton.mpr rfl, rfl⟩).1

theorem createBookingTry_notFound (db : List ServiceDoc) (area : ServiceArea)
    (nid : String) (b : BookingModel)
    (hf : db.find? (fun d => d.name? == some b.service_name.toName) = none) :
    createBookingTry db area nid b
      = Except.error (.http 404 "Service not found") := by
  unfold createBookingTry
  rw [hf]
  rfl

theorem createBookingTry_attrError (db : List ServiceDoc) (area : ServiceArea)
    (nid : String) (b : BookingModel) (svc : ServiceDoc)
    (hf : db.find? (fun d => d.name? == some b.service_name.toName) = some svc) :
    createBookingTry db area nid b
      = Except.error (.attributeError "quoted_price") := by
  unfold createBookingTry
  rw [hf]
  rfl

theorem createBooking_eq_match (db : List ServiceDoc) (area : ServiceArea)
    (nid : String) (b : BookingModel) :
    createBooking (some db) area nid b
      = (match createBookingTry db area nid b with
          | .error e => (Except.error e.toResponse, ([] : List PersistedBooking))
          | .ok (res, persisted) => (Except.ok res, persisted)) := rfl

theorem createBooking_notFound (db : List ServiceDoc) (area : ServiceArea)
    (nid : String) (b : BookingModel)
    (hf : db.find? (fun d => d.name? == some b.service_name.toName) = none) :
    createBooking (some db) area nid b
      = (Except.error (404, "Service not found"), []) := by
  rw [createBooking_eq_match, createBookingTry_notFound db area nid b hf]
  rfl

theorem createBooking_attrError (db : List ServiceDoc) (area : ServiceArea)
    (nid : String) (b : BookingModel) (svc : ServiceDoc)
    (hf : db.find? (fun d => d.name? == some b.service_name.toName) = some svc) :
    createBooking (some db) area nid b
      = (Except.error (500, "Booking object has no attribute quoted_price"), []) := by
  rw [createBooking_eq_match, createBookingTry_attrError db area nid b svc hf]
  rfl

theorem createBooking_persists_nothing (db? : Option (List ServiceDoc))
    (area : ServiceArea) (nid : String) (b : BookingModel) :
    (createBooking db? area nid b).2 = [] := by
  cases db? with
  | none => rfl
  | some db =>
    cases hf : db.find? (fun d => d.name? == some b.service_name.toName) with
    | none => rw [createBooking_notFound db area nid b hf]
    | some svc => rw [createBooking_attrError db area nid b svc hf]

/-- C2 counterexample: with the service collection holding only an
inactive "Car Wash" document, the requested service name does not exist as
an active service, yet creation does not fail with 404 NotFound — the
`find_one` query of src/main.py line 201 has no `is_active` filter, so the
inactive document resolves and the handler then fails with the 500
AttributeError response instead. -/
theorem C2_counterexample_inactive_service :
    (createBooking (some inactiveCarWashDb) defaultServiceArea "new-id" sampleBooking).1
        ≠ Except.error (404, "Service not found")
      ∧ (createBooking (some inactiveCarWashDb) defaultServiceArea "new-id" sampleBooking).1
          = Except.error (500, "Booking object has no attribute quoted_price") := by
  have h := createBooking_attrError inactiveCarWashDb defaultServiceArea "new-id"
    sampleBooking ⟨some "Car Wash", some 25, some false⟩ rfl
  refine ⟨?_, by rw [h]⟩
  rw [h]
  simp

/-- C2 (amended): booking creation fails with 404 NotFound exactly on the
path where no service document with the requested name exists at all — the
lookup ignores `is_active` — and the create handler never persists any
booking (every request fails before the insert), so in particular a
booking is only ever persisted with an actively resolved service,
vacuously. -/
theorem C2_service_resolution (db : List ServiceDoc) (area : ServiceArea)
    (nid : String) (b : BookingModel) :
    (db.find? (fun d => d.name? == some b.service_name.toName) = none →
        createBooking (some db) area nid b
          = (Except.error (404, "Service not found"), []))
      ∧ ∀ db' : Option (List ServiceDoc), (createBooking db' area nid b).2 = [] :=
  ⟨createBooking_notFound db area nid b,
    fun db' => createBooking_persists_nothing db' area nid b⟩

/-- Evaluation of C2 (amended) on an empty service collection: the lookup
fails and creation is answered with 404 NotFound, persisting nothing. -/
theorem C2_service_resolution_witness :
    createBooking (some []) defaultServiceArea "new-id" sampleBooking
      = (Except.error (404, "Service not found"), []) :=
  (C2_service_resolution [] defaultServiceArea "new-id" sampleBooking).1 rfl

/-- C3 at the failing input: a valid Car Wash booking request against the
seeded catalog — which necessarily carries no `quoted_price`, since the
`Booking` model declares no such field — is answered with the 500
AttributeError response: no quote is computed, frozen, or returned, and
nothing is persisted. -/
theorem C3_quote_never_frozen :
    (createBooking (some seedServices) defaultServiceArea "new-id" sampleBooking).1
        = Except.error (500, "Booking object has no attribute quoted_price")
      ∧ (createBooking (some seedServices) defaultServiceArea "new-id" sampleBooking).2
          = []
      ∧ ∀ ok : CreateOk,
          (createBooking (some seedServices) defaultServiceArea "new-id" sampleBooking).1
            ≠ Except.ok ok := by
  have h := createBooking_attrError seedServices defaultServiceArea "new-id"
    sampleBooking carWashDoc rfl
  refine ⟨by rw [h], by rw [h], ?_⟩
  intro ok hok
  rw [h] at hok
  simp at hok

/-- C4: the 400 "Address is outside service area" rejection is unreachable:
no request ever produces it, because the handler raises `AttributeError` on
`booking.quoted_price` (and the model cannot even carry coordinates) before
the service-area check; every create request fails without persisting, the
seeded-catalog evaluation showing the 500 AttributeError response. -/
theorem C4_out_of_area_unreachable (db? : Option (List ServiceDoc))
    (area : ServiceArea) (nid : String) (b : BookingModel) :
    (createBooking db? area nid b).1
        ≠ Except.error (400, "Address is outside service area")
      ∧ (createBooking db? area nid b).2 = []
      ∧ (createBooking (some seedServices) defaultServiceArea "new-id" sampleBooking).1
          = Except.error (500, "Booking object has no attribute quoted_price") := by
  refine ⟨?_, createBooking_persists_nothing db? area nid b, by
    rw [createBooking_attrError seedServices defaultServiceArea "new-id"
      sampleBooking carWashDoc rfl]⟩
  cases db? with
  | none => simp [createBooking]
  | some db =>
    cases hf : db.find? (fun d => d.name? == some b.service_name.toName) with
    | none =>
      rw [createBooking_notFound db area nid b hf]
      simp
    | some svc =>
      rw [createBooking_attrError db area nid b svc hf]
      simp

/-- C10 (amended): every validated booking request whose service name
resolves against the service collection is answered with the 500
AttributeError response — the handler reads the undeclared
`booking.quoted_price` attribute before anything else can happen — and
nothing is persisted. -/
theorem C10_create_attribute_error (db : List ServiceDoc) (area : ServiceArea)
    (nid : String) (b : BookingModel) (svc : ServiceDoc)
    (hf : db.find? (fun d => d.name? == some b.service_name.toName) = some svc) :
    createBooking (some db) area nid b
      = (Except.error (500, "Booking object has no attribute quoted_price"), []) :=
  createBooking_attrError db area nid b svc hf

/-- Evaluation of C10 (amended) on the seeded catalog. -/
theorem C10_create_attribute_error_witness :
    createBooking (some seedServices) defaultServiceArea "new-id" sampleBooking
      = (Except.error (500, "Booking object has no attribute quoted_price"), []) :=
  C10_create_attribute_error seedServices defaultServiceArea "new-id" sampleBooking
    carWashDoc rfl

/-- C10 counterexample: the claim as stated fails — not every validated
request yields an internal error.  Against an empty service collection the
handler answers 404 NotFound (raised before the attribute access), which is
not a 500 internal error. -/
theorem C10_counterexample_not_found_path :
    (createBooking (some []) defaultServiceArea "new-id" sampleBooking).1
        = Except.error (404, "Service not found")
      ∧ ∀ msg : String,
          (createBooking (some []) defaultServiceArea "new-id" sampleBooking).1
            ≠ Except.error (500, msg) := by
  have h := createBooking_notFound [] defaultServiceArea "new-id" sampleBooking rfl
  refine ⟨by rw [h], ?_⟩
  intro msg hmsg
  rw [h] at hmsg
  simp at hmsg

/-- Evaluation of C6 with the code "pickup_drop" occurring twice: the
second occurrence contributes the 8.0 price again and the add-on object is
prepended to the output again. -/
theorem C6_duplicate_addons_witness :
    (computeQuote carWashDoc none (some ("pickup_drop" :: ["pickup_drop"]))).addons
        = ⟨"pickup_drop", "Pick-up & Drop", 8⟩
            :: (computeQuote carWashDoc none (some ["pickup_drop"])).addons
      ∧ addonPricesSum ("pickup_drop" :: ["pickup_drop"])
          = (8 : ℚ) + addonPricesSum ["pickup_drop"] := by
  have h := C6_duplicate_addons carWashDoc none ["pickup_drop"] "pickup_drop"
    ⟨"pickup_drop", "Pick-up & Drop", 8⟩ rfl
  exact ⟨h.1, h.2.1⟩
